import Mathlib

/-
Formal model of the GhostWall detection-and-defense pipeline.

Sources embedded here (shallowly, over Nat / Int / Rat and lists):
  - Defense_Solutions/common.py      : CooldownGate, make_action
  - Defense_Solutions/SSH/ssh.py     : SSHDefense.evaluate
  - Defense_Solutions/HTTP/http.py   : HTTPDefense.evaluate
  - Defense_Solutions/FTP/ftp.py     : FTPDefense.evaluate
  - Defense_Solutions/engine.py      : build_defense_actions dispatcher
  - Defense_Solutions/policy.py      : DefensePolicy.apply_mitigation and
                                       the nft command constructors
  - handler.py / app/scoring.py      : threat-score metrics, raw score,
                                       decayed tick and level thresholds
  - Defense_Solutions/fport/fssh.py  : connection router

Python floats are modelled as rationals; Python dicts used as maps are
modelled as association lists; external effects (subprocess execution,
socket dials) are abstract parameters.
-/

namespace GhostWall

/-- Association-list lookup with a default, modelling Python
dict.get(key, default). -/
def lookupD {α : Type} : List (String × α) → String → α → α
  | [], _, d => d
  | (k', v) :: rest, k, d => if k' = k then v else lookupD rest k d

/-- Association-list update, modelling Python dict[key] = value. -/
def setK {α : Type} : List (String × α) → String → α → List (String × α)
  | [], k, v => [(k, v)]
  | (k', v') :: rest, k, v =>
      if k' = k then (k, v) :: rest else (k', v') :: setK rest k v

/-- Round-half-to-even on rationals (the rounding mode of Python round). -/
def roundHalfEven (q : ℚ) : ℤ :=
  if q - (⌊q⌋ : ℚ) < 1 / 2 then ⌊q⌋
  else if 1 / 2 < q - (⌊q⌋ : ℚ) then ⌊q⌋ + 1
  else if ⌊q⌋ % 2 = 0 then ⌊q⌋ else ⌊q⌋ + 1

/-- Python round(x, 2): round to two decimal places, half to even. -/
def round2 (q : ℚ) : ℚ := (roundHalfEven (q * 100) : ℚ) / 100

/-!  CooldownGate, from Defense_Solutions/common.py.

class CooldownGate:
    def __init__(self, cooldown_seconds): ...
    def allow(self, key, now):
        last = self._last_seen.get(key, 0.0)
        if now - last < self._cooldown_seconds: return False
        self._last_seen[key] = now
        return True
-/

structure CooldownGate where
  cooldown_seconds : ℚ
  last_seen : List (String × ℚ)
deriving Repr, DecidableEq

/-- CooldownGate.allow from Defense_Solutions/common.py, returning the
decision together with the updated gate state. -/
def CooldownGate.allow (g : CooldownGate) (key : String) (now : ℚ) :
    Bool × CooldownGate :=
  if now - lookupD g.last_seen key 0 < g.cooldown_seconds then (false, g)
  else (true, ⟨g.cooldown_seconds, setK g.last_seen key now⟩)

/-- A fresh gate as built by CooldownGate(cooldown_seconds=c). -/
def CooldownGate.fresh (c : ℚ) : CooldownGate := ⟨c, []⟩

/-- Replay of a sequence of allow calls, collecting the calls that were
allowed, together with the final gate state. -/
def CooldownGate.runCalls (g : CooldownGate) :
    List (String × ℚ) → List (String × ℚ) × CooldownGate
  | [] => ([], g)
  | (k, t) :: rest =>
      let step := g.allow k t
      let tail := step.2.runCalls rest
      if step.1 then ((k, t) :: tail.1, tail.2) else (tail.1, tail.2)

/-!  Events and actions, from Defense_Solutions/common.py.  Python floats
are rationals; the dynamic coercion branches of normalize_event collapse
under this typed embedding (ints arrive as ints). -/

/-- An incoming event dict: type / src_ip / timestamp required, port,
ports and count optional (count defaults to 0, ports to []). -/
structure RawEvent where
  type : String
  src_ip : String
  port : Option Int
  ports : List Int
  count : Int
  timestamp : ℚ
deriving Repr, DecidableEq

structure NormalizedEvent where
  event_type : String
  src_ip : String
  port : Option Int
  timestamp : ℚ
  ports : List Int
  count : Int
deriving Repr, DecidableEq

/-- Insertion into a sorted list of ints. -/
def insertSorted (x : Int) : List Int → List Int
  | [] => [x]
  | y :: rest => if x ≤ y then x :: y :: rest else y :: insertSorted x rest

/-- Insertion sort, modelling Python sorted on a list of ints. -/
def sortInts (l : List Int) : List Int := l.foldr insertSorted []

/-- normalize_event from Defense_Solutions/common.py: ports is the sorted
set of the incoming ports. -/
def normalize_event (e : RawEvent) : NormalizedEvent :=
  ⟨e.type, e.src_ip, e.port, e.timestamp, sortInts e.ports.dedup, e.count⟩

structure Mitigation where
  type : String
  backend : String
  duration_seconds : Int
  reason : String
  target_host : Option String
  target_port : Option Int
deriving Repr, DecidableEq

structure Action where
  source : String
  severity : String
  summary : String
  src_ip : String
  event_type : String
  commands : List String
  confidence : ℚ
  tags : List String
  mitigation : Option Mitigation
deriving Repr, DecidableEq

/-- make_action from Defense_Solutions/common.py: clamps confidence to
[0, 1] and rounds it to two decimals. -/
def make_action (source severity summary src_ip event_type : String)
    (commands : List String) (confidence : ℚ) (tags : List String)
    (mitigation : Option Mitigation) : Action :=
  ⟨source, severity, summary, src_ip, event_type, commands,
   round2 (max 0 (min 1 confidence)), tags, mitigation⟩

/-- Python str.lower on ASCII strings (severity labels). -/
def strToLower (s : String) : String := String.mk (s.data.map Char.toLower)

/-- Rendering of an optional port the way a Python f-string prints it. -/
def optIntStr : Option Int → String
  | some p => toString p
  | none => "None"

/-- Membership of an optional port in a port set. -/
def portMem (p : Option Int) (ports : List Int) : Bool :=
  match p with
  | some v => ports.contains v
  | none => false

/-- Sliding-window prune: drop timestamps from the front while they are
older than the cutoff (the while/popleft loops of the evaluators). -/
def pruneTimes (cutoff : ℚ) : List ℚ → List ℚ
  | [] => []
  | t :: rest => if t < cutoff then pruneTimes cutoff rest else t :: rest

/-!  SSHDefense, from Defense_Solutions/SSH/ssh.py. -/

def SSH_WINDOW_SECONDS : Nat := 60
def SSH_BURST_THRESHOLD : Nat := 6
def SSH_CRITICAL_THRESHOLD : Nat := 12
def SSH_BLOCK_SECONDS : Int := 900

structure SSHDefense where
  attempts : List (String × List ℚ)
  cooldown : CooldownGate
deriving Repr, DecidableEq

def SSHDefense.init : SSHDefense := ⟨[], CooldownGate.fresh 25⟩

def sshObserveAction (src_ip : String) (count : Nat) : Action :=
  make_action "ssh/cowrie" (if count < SSH_BURST_THRESHOLD then "low" else "high")
    ("SSH probe from " ++ src_ip ++ " (port 22) observed on Cowrie ingress.")
    src_ip "connect.attempt"
    ["docker logs --tail 40 ghostwall-cowrie"]
    (if count < SSH_BURST_THRESHOLD then 6 / 10 else 82 / 100)
    ["ssh", "cowrie", "probe"] none

def sshBurstAction (src_ip : String) (count : Nat) : Action :=
  make_action "ssh/cowrie" "high"
    ("Repeated SSH attempts from " ++ src_ip ++ " (" ++ toString count ++
      " in " ++ toString SSH_WINDOW_SECONDS ++ "s).")
    src_ip "connect.attempt"
    ["docker logs --tail 200 ghostwall-cowrie",
     "docker exec ghostwall-cowrie tail -n 20 /cowrie/var/log/cowrie/cowrie.json"]
    (9 / 10) ["ssh", "cowrie", "burst"] none

def sshCriticalAction (src_ip : String) (count : Nat) : Action :=
  make_action "ssh/cowrie" "critical"
    ("SSH spray from " ++ src_ip ++ " crossed block threshold (" ++
      toString count ++ "/" ++ toString SSH_WINDOW_SECONDS ++ "s).")
    src_ip "connect.attempt"
    ["sudo -n nft list ruleset", "docker logs --tail 200 ghostwall-cowrie"]
    (98 / 100) ["ssh", "cowrie", "spray", "candidate-block"]
    (some ⟨"block_ip", "nftables", SSH_BLOCK_SECONDS, "ssh_syn_spray", none, none⟩)

def sshBruteforceAction (src_ip : String) : Action :=
  make_action "ssh/cowrie" "critical"
    ("Possible SSH brute-force from " ++ src_ip ++ "; prioritize Cowrie log triage.")
    src_ip "brute.force"
    ["docker logs --tail 200 ghostwall-cowrie",
     "docker exec ghostwall-cowrie tail -n 5 /cowrie/var/log/cowrie/cowrie.json"]
    (95 / 100) ["ssh", "cowrie", "bruteforce"] none

/-- SSHDefense.evaluate from Defense_Solutions/SSH/ssh.py.  The returned
pair is (actions, updated evaluator state). -/
def SSHDefense.evaluate (s : SSHDefense) (event : RawEvent) :
    List Action × SSHDefense :=
  let ev := normalize_event event
  let src_ip := ev.src_ip
  let now := ev.timestamp
  let part1 : List Action × SSHDefense :=
    if ev.event_type = "connect.attempt" ∧ ev.port = some 22 then
      let attempts := pruneTimes (now - (SSH_WINDOW_SECONDS : ℚ))
        (lookupD s.attempts src_ip [] ++ [now])
      let count := attempts.length
      let s₁ : SSHDefense := ⟨setK s.attempts src_ip attempts, s.cooldown⟩
      let obs := s₁.cooldown.allow ("ssh.observe:" ++ src_ip) now
      let acts₁ := if obs.1 then [sshObserveAction src_ip count] else []
      let burst := if SSH_BURST_THRESHOLD ≤ count then
          obs.2.allow ("ssh.burst:" ++ src_ip) now else (false, obs.2)
      let acts₂ := if burst.1 then [sshBurstAction src_ip count] else []
      let crit := if SSH_CRITICAL_THRESHOLD ≤ count then
          burst.2.allow ("ssh.critical:" ++ src_ip) now else (false, burst.2)
      let acts₃ := if crit.1 then [sshCriticalAction src_ip count] else []
      (acts₁ ++ acts₂ ++ acts₃, ⟨s₁.attempts, crit.2⟩)
    else ([], s)
  let s₂ := part1.2
  if ev.event_type = "brute.force" ∧ ev.port = some 22 then
    let bf := s₂.cooldown.allow ("ssh.bruteforce:" ++ src_ip) now
    (part1.1 ++ (if bf.1 then [sshBruteforceAction src_ip] else []),
     ⟨s₂.attempts, bf.2⟩)
  else (part1.1, s₂)

/-!  HTTPDefense, from Defense_Solutions/HTTP/http.py. -/

def HTTP_WEB_PORTS : List Int := [80, 443, 8080, 8443]
def HTTP_WINDOW_SECONDS : Nat := 60
def HTTP_PROBE_THRESHOLD : Nat := 30
def HTTP_RATE_LIMIT_SECONDS : Int := 900

structure HTTPDefense where
  hits : List (String × List ℚ)
  cooldown : CooldownGate
deriving Repr, DecidableEq

def HTTPDefense.init : HTTPDefense := ⟨[], CooldownGate.fresh 20⟩

def httpObserveAction (src_ip : String) (port : Option Int) (count : Nat) : Action :=
  make_action "http" (if count < HTTP_PROBE_THRESHOLD then "low" else "high")
    ("HTTP/S probe from " ++ src_ip ++ " on port " ++ optIntStr port ++
      " (" ++ toString count ++ "/" ++ toString HTTP_WINDOW_SECONDS ++ "s).")
    src_ip "connect.attempt"
    ["review reverse-proxy access logs for URI spray/signature patterns"]
    (if count < HTTP_PROBE_THRESHOLD then 55 / 100 else 85 / 100)
    ["http", "probe"] none

def httpRateLimitAction (src_ip : String) (count : Nat) : Action :=
  make_action "http" "high"
    ("HTTP spray threshold exceeded for " ++ src_ip ++ " (" ++
      toString count ++ "/" ++ toString HTTP_WINDOW_SECONDS ++ "s); apply rate limit.")
    src_ip "connect.attempt"
    ["enable temporary strict rate limiting on ingress",
     "capture source IP in WAF denylist review queue"]
    (9 / 10) ["http", "spray", "ratelimit"]
    (some ⟨"rate_limit_ip", "nftables", HTTP_RATE_LIMIT_SECONDS, "http_high_rate_probe",
      none, none⟩)

def httpSweepAction (src_ip : String) : Action :=
  make_action "http" "medium"
    ("Port sweep touching web ports from " ++ src_ip ++ ".")
    src_ip "port.sweep"
    ["enable temporary strict rate limiting on ingress",
     "capture source IP in WAF denylist review queue"]
    (8 / 10) ["http", "sweep"] none

def httpBruteAction (src_ip : String) (port : Option Int) : Action :=
  make_action "http" "high"
    ("High-rate brute-force signature on web port " ++ optIntStr port ++
      " from " ++ src_ip ++ ".")
    src_ip "brute.force"
    ["rotate or lock targeted account paths",
     "tighten WAF challenge policy for source cohort"]
    (9 / 10) ["http", "bruteforce"] none

/-- HTTPDefense.evaluate from Defense_Solutions/HTTP/http.py. -/
def HTTPDefense.evaluate (s : HTTPDefense) (event : RawEvent) :
    List Action × HTTPDefense :=
  let ev := normalize_event event
  let src_ip := ev.src_ip
  let now := ev.timestamp
  let part1 : List Action × HTTPDefense :=
    if ev.event_type = "connect.attempt" ∧ portMem ev.port HTTP_WEB_PORTS then
      let hitList := pruneTimes (now - (HTTP_WINDOW_SECONDS : ℚ))
        (lookupD s.hits src_ip [] ++ [now])
      let count := hitList.length
      let s₁ : HTTPDefense := ⟨setK s.hits src_ip hitList, s.cooldown⟩
      let obs := s₁.cooldown.allow ("http.observe:" ++ src_ip) now
      let acts₁ := if obs.1 then [httpObserveAction src_ip ev.port count] else []
      let rl := if HTTP_PROBE_THRESHOLD ≤ count then
          obs.2.allow ("http.ratelimit:" ++ src_ip) now else (false, obs.2)
      let acts₂ := if rl.1 then [httpRateLimitAction src_ip count] else []
      (acts₁ ++ acts₂, ⟨s₁.hits, rl.2⟩)
    else ([], s)
  let s₂ := part1.2
  let part2 : List Action × HTTPDefense :=
    if ev.event_type = "port.sweep" ∧
        ev.ports.any (fun p => HTTP_WEB_PORTS.contains p) then
      let sw := s₂.cooldown.allow ("http.sweep:" ++ src_ip) now
      (part1.1 ++ (if sw.1 then [httpSweepAction src_ip] else []),
       ⟨s₂.hits, sw.2⟩)
    else (part1.1, s₂)
  let s₃ := part2.2
  if ev.event_type = "brute.force" ∧ portMem ev.port HTTP_WEB_PORTS then
    let bf := s₃.cooldown.allow ("http.bruteforce:" ++ src_ip) now
    (part2.1 ++ (if bf.1 then [httpBruteAction src_ip ev.port] else []),
     ⟨s₃.hits, bf.2⟩)
  else (part2.1, s₃)

/-!  FTPDefense, from Defense_Solutions/FTP/ftp.py 1-119 (the evaluator;
the fake FTP service in the same file is outside the claims). -/

def FTP_PORTS : List Int := [21]
def FTP_WINDOW_SECONDS : Nat := 60
def FTP_PROBE_THRESHOLD : Nat := 8
def FTP_BLOCK_SECONDS : Int := 900

structure FTPDefense where
  hits : List (String × List ℚ)
  cooldown : CooldownGate
deriving Repr, DecidableEq

def FTPDefense.init : FTPDefense := ⟨[], CooldownGate.fresh 20⟩

def ftpObserveAction (src_ip : String) (port : Option Int) (count : Nat) : Action :=
  make_action "ftp" (if count < FTP_PROBE_THRESHOLD then "low" else "high")
    ("FTP probe from " ++ src_ip ++ " on port " ++ optIntStr port ++
      " (" ++ toString count ++ "/" ++ toString FTP_WINDOW_SECONDS ++ "s).")
    src_ip "connect.attempt"
    ["review FTP auth logs for repeated credential attempts",
     "confirm anonymous login is disabled"]
    (if count < FTP_PROBE_THRESHOLD then 6 / 10 else 86 / 100)
    ["ftp", "probe"] none

def ftpBlockAction (src_ip : String) (count : Nat) : Action :=
  make_action "ftp" "high"
    ("FTP spray threshold exceeded for " ++ src_ip ++ " (" ++
      toString count ++ "/" ++ toString FTP_WINDOW_SECONDS ++ "s).")
    src_ip "connect.attempt"
    ["temporarily block source IP at firewall",
     "inspect FTP daemon logs for credential stuffing"]
    (92 / 100) ["ftp", "spray", "block"]
    (some ⟨"block_ip", "nftables", FTP_BLOCK_SECONDS, "ftp_high_rate_probe", none, none⟩)

def ftpSweepAction (src_ip : String) : Action :=
  make_action "ftp" "medium"
    ("Port sweep touching FTP service from " ++ src_ip ++ ".")
    src_ip "port.sweep"
    ["review source reputation and prior failed FTP auth history",
     "increase FTP logging verbosity temporarily"]
    (8 / 10) ["ftp", "sweep"] none

def ftpBruteAction (src_ip : String) (port : Option Int) : Action :=
  make_action "ftp" "high"
    ("Possible FTP brute-force from " ++ src_ip ++ " on port " ++
      optIntStr port ++ ".")
    src_ip "brute.force"
    ["block source IP for 15 minutes",
     "rotate exposed FTP credentials and review access logs"]
    (95 / 100) ["ftp", "bruteforce"]
    (some ⟨"block_ip", "nftables", FTP_BLOCK_SECONDS, "ftp_bruteforce_detected", none, none⟩)

/-- FTPDefense.evaluate from Defense_Solutions/FTP/ftp.py. -/
def FTPDefense.evaluate (s : FTPDefense) (event : RawEvent) :
    List Action × FTPDefense :=
  let ev := normalize_event event
  let src_ip := ev.src_ip
  let now := ev.timestamp
  let part1 : List Action × FTPDefense :=
    if ev.event_type = "connect.attempt" ∧ portMem ev.port FTP_PORTS then
      let hitList := pruneTimes (now - (FTP_WINDOW_SECONDS : ℚ))
        (lookupD s.hits src_ip [] ++ [now])
      let count := hitList.length
      let s₁ : FTPDefense := ⟨setK s.hits src_ip hitList, s.cooldown⟩
      let obs := s₁.cooldown.allow ("ftp.observe:" ++ src_ip) now
      let acts₁ := if obs.1 then [ftpObserveAction src_ip ev.port count] else []
      let blk := if FTP_PROBE_THRESHOLD ≤ count then
          obs.2.allow ("ftp.block:" ++ src_ip) now else (false, obs.2)
      let acts₂ := if blk.1 then [ftpBlockAction src_ip count] else []
      (acts₁ ++ acts₂, ⟨s₁.hits, blk.2⟩)
    else ([], s)
  let s₂ := part1.2
  let part2 : List Action × FTPDefense :=
    if ev.event_type = "port.sweep" ∧
        ev.ports.any (fun p => FTP_PORTS.contains p) then
      let sw := s₂.cooldown.allow ("ftp.sweep:" ++ src_ip) now
      (part1.1 ++ (if sw.1 then [ftpSweepAction src_ip] else []),
       ⟨s₂.hits, sw.2⟩)
    else (part1.1, s₂)
  let s₃ := part2.2
  if ev.event_type = "brute.force" ∧ portMem ev.port FTP_PORTS then
    let bf := s₃.cooldown.allow ("ftp.bruteforce:" ++ src_ip) now
    (part2.1 ++ (if bf.1 then [ftpBruteAction src_ip ev.port] else []),
     ⟨s₃.hits, bf.2⟩)
  else (part2.1, s₃)

/-!  Policy enforcement, from Defense_Solutions/policy.py.  External
command execution (subprocess.run) is abstracted by a runner that maps an
argv to either an exit code plus stderr, or an execution error; each
policy function also returns the trace of argv vectors it handed to the
runner, so that "no external command was executed" is expressible. -/

inductive RunOutcome where
  | ok (returncode : Int) (stderr : String)
  | execError (msg : String)
deriving Repr, DecidableEq

/-- The enforcement dict of DefensePolicy: the fields the claims are
about (applied, reason, stderr). -/
structure EnfResult where
  applied : Bool
  reason : Option String
  stderr : String
deriving Repr, DecidableEq

structure DefensePolicy where
  mode : String
  backend : String
  cowrie_host : String
  cowrie_port : Int
  is_root : Bool
deriving Repr, DecidableEq

/-- DefensePolicy() under default environment: DEFENSE_MODE=detect,
nftables backend, Cowrie at 127.0.0.1:2222, non-root process. -/
def DefensePolicy.defaults : DefensePolicy :=
  ⟨"detect", "nftables", "127.0.0.1", 2222, false⟩

/-- The sudo -n wrapping of DefensePolicy._run for non-root processes. -/
def effectiveCommand (is_root : Bool) (cmd : List String) : List String :=
  if ¬is_root ∧ cmd.head? = some "nft" then "sudo" :: "-n" :: cmd else cmd

/-- DefensePolicy._run: execute one command through the abstract runner;
applied is true exactly on exit code 0. -/
def policyRun (p : DefensePolicy) (runner : List String → RunOutcome)
    (cmd : List String) : EnfResult × List (List String) :=
  let eff := effectiveCommand p.is_root cmd
  match runner eff with
  | RunOutcome.execError _ => (⟨false, some "exec_error", ""⟩, [eff])
  | RunOutcome.ok rc err =>
      (⟨rc == 0, if rc == 0 then none else some "command_failed", err⟩, [eff])

/-- The geteuid()-conditional sudo wrapping of the module-level command
constructors in policy.py. -/
def sudoWrap (is_root : Bool) (base : List String) : List String :=
  if is_root then base else "sudo" :: "-n" :: base

/-- _nft_block_ip_command from policy.py. -/
def nft_block_ip_command (is_root : Bool) (src_ip : String)
    (duration_seconds : Int) : List String :=
  sudoWrap is_root
    ["nft", "add", "element", "inet", "filter", "ghostwall_blocklist",
     "\x7b", src_ip, "timeout", toString (max 60 duration_seconds) ++ "s", "\x7d"]

/-- _nft_add_redirect_source_command from policy.py. -/
def nft_add_redirect_source_command (is_root : Bool) (src_ip : String)
    (duration_seconds : Int) : List String :=
  sudoWrap is_root
    ["nft", "add", "element", "ip", "ghostwall_nat", "ssh_redirect_sources",
     "\x7b", src_ip, "timeout", toString (max 60 duration_seconds) ++ "s", "\x7d"]

/-- The NAT rule command built inline in
DefensePolicy._ensure_ssh_redirect_infra (the fourth command of its
command list). -/
def ssh_redirect_rule_command (target_host : String) (target_port : Int) : List String :=
  ["nft", "add", "rule", "ip", "ghostwall_nat", "prerouting", "ip", "saddr",
   "@ssh_redirect_sources", "tcp", "dport", "22", "dnat", "to",
   target_host ++ ":" ++ toString target_port]

/-- The full command list of DefensePolicy._ensure_ssh_redirect_infra. -/
def ssh_redirect_infra_commands (target_host : String) (target_port : Int) :
    List (List String) :=
  [["nft", "add", "table", "ip", "ghostwall_nat"],
   ["nft", "add", "chain", "ip", "ghostwall_nat", "prerouting", "\x7b", "type",
    "nat", "hook", "prerouting", "priority", "dstnat;", "policy", "accept;", "\x7d"],
   ["nft", "add", "set", "ip", "ghostwall_nat", "ssh_redirect_sources", "\x7b",
    "type", "ipv4_addr;", "flags", "timeout;", "\x7d"],
   ssh_redirect_rule_command target_host target_port]

/-- Sub-list (contiguous substring) test on char lists. -/
def hasSubList (pat : List Char) : List Char → Bool
  | [] => pat.isEmpty
  | c :: rest => pat.isPrefixOf (c :: rest) || hasSubList pat rest

/-- Python "pat in s" substring test. -/
def strContainsSub (s pat : String) : Bool := hasSubList pat.toList s.toList

/-- _is_ip from policy.py, restricted to the IPv4 dotted-quad grammar of
ipaddress.ip_address (four octets, digits only, 0-255, no leading zeros);
the claims never reach the IPv6 branch. -/
def _is_ip (v : String) : Bool :=
  let parts := v.splitOn "."
  parts.length == 4 && parts.all (fun s =>
    (!s.isEmpty) && s.toList.all Char.isDigit &&
    (s == "0" || s.front != '0') && (s.toNat?).getD 256 ≤ 255)

/-- The setup loop of _ensure_ssh_redirect_infra: run each command,
tolerating failures whose stderr contains "File exists". -/
def ensureLoop (p : DefensePolicy) (runner : List String → RunOutcome) :
    List (List String) → EnfResult × List (List String)
  | [] => (⟨true, some "infra_ready", ""⟩, [])
  | cmd :: rest =>
      let r := policyRun p runner cmd
      if r.1.applied then
        let t := ensureLoop p runner rest
        (t.1, r.2 ++ t.2)
      else if strContainsSub r.1.stderr "File exists" then
        let t := ensureLoop p runner rest
        (t.1, r.2 ++ t.2)
      else (⟨false, some "infra_setup_failed", r.1.stderr⟩, r.2)

/-- DefensePolicy._ensure_ssh_redirect_infra. -/
def ensure_ssh_redirect_infra (p : DefensePolicy)
    (runner : List String → RunOutcome) (target_host : String)
    (target_port : Int) : EnfResult × List (List String) :=
  ensureLoop p runner (ssh_redirect_infra_commands target_host target_port)

/-- An action as normalized by the dispatcher (engine.py _normalize_action):
created_at stamped from the event, enforcement appended on emission. -/
structure DispatchedAction where
  source : String
  severity : String
  summary : String
  src_ip : String
  event_type : String
  commands : List String
  confidence : ℚ
  tags : List String
  mitigation : Option Mitigation
  created_at : ℚ
  enforcement : Option EnfResult
deriving Repr, DecidableEq

/-- DefensePolicy.apply_mitigation from policy.py. -/
def apply_mitigation (p : DefensePolicy) (runner : List String → RunOutcome)
    (a : DispatchedAction) : EnfResult × List (List String) :=
  match a.mitigation with
  | none => (⟨false, some "no_mitigation", ""⟩, [])
  | some m =>
      if p.mode ≠ "auto-block" then (⟨false, some "detect_mode", ""⟩, [])
      else if ¬_is_ip a.src_ip then (⟨false, some "invalid_ip", ""⟩, [])
      else if p.backend ≠ "nftables" then
        (⟨false, some ("unsupported_backend:" ++ p.backend), ""⟩, [])
      else if m.type = "block_ip" then
        policyRun p runner (nft_block_ip_command p.is_root a.src_ip m.duration_seconds)
      else if m.type = "redirect_ssh" then
        let host := m.target_host.getD p.cowrie_host
        let port := m.target_port.getD p.cowrie_port
        let prep := ensure_ssh_redirect_infra p runner host port
        if ¬prep.1.applied then prep
        else
          let r := policyRun p runner
            (nft_add_redirect_source_command p.is_root a.src_ip m.duration_seconds)
          (r.1, prep.2 ++ r.2)
      else if m.type = "rate_limit_ip" then
        (⟨false, some "manual_rate_limit_required", ""⟩, [])
      else (⟨false, some ("unknown_mitigation:" ++ m.type), ""⟩, [])

/-!  The defense dispatcher, from Defense_Solutions/engine.py. -/

def _VALID_SEVERITY : List String := ["low", "medium", "high", "critical"]

/-- engine.py _normalize_action: lower-case and clamp severity to the
known enum, stamp created_at from the event timestamp. -/
def normalize_action (a : Action) (e : RawEvent) : DispatchedAction :=
  ⟨a.source,
   if _VALID_SEVERITY.contains (strToLower a.severity) then strToLower a.severity
   else "low",
   a.summary, a.src_ip, a.event_type, a.commands, a.confidence, a.tags,
   a.mitigation, e.timestamp, none⟩

/-- The dedup key {source}|{severity}|{src_ip}|{event_type}|{summary}. -/
def dedupKey (n : DispatchedAction) : String :=
  n.source ++ "|" ++ n.severity ++ "|" ++ n.src_ip ++ "|" ++ n.event_type ++
    "|" ++ n.summary

structure EngineState where
  ssh : SSHDefense
  http : HTTPDefense
  ftp : FTPDefense
  gate : CooldownGate
  policy : DefensePolicy
deriving Repr, DecidableEq

/-- The module-level dispatcher state of engine.py at import time:
fresh evaluators, a 15 s engine gate, default policy. -/
def EngineState.init : EngineState :=
  ⟨SSHDefense.init, HTTPDefense.init, FTPDefense.init, CooldownGate.fresh 15,
   DefensePolicy.defaults⟩

/-- The inner candidate loop of build_defense_actions: normalize each
candidate, pass its dedup key through the engine gate, and enrich the
survivors with the policy enforcement result. -/
def dispatchCandidates (p : DefensePolicy) (runner : List String → RunOutcome)
    (e : RawEvent) :
    CooldownGate → List Action → List DispatchedAction × CooldownGate
  | g, [] => ([], g)
  | g, a :: rest =>
      let n := normalize_action a e
      let step := g.allow (dedupKey n) e.timestamp
      let tail := dispatchCandidates p runner e step.2 rest
      if step.1 then
        ({ n with enforcement := some (apply_mitigation p runner n).1 } :: tail.1,
         tail.2)
      else tail

/-- build_defense_actions from engine.py: fan the event to the SSH, HTTP
and FTP evaluators in that order and dispatch their candidates. -/
def build_defense_actions (runner : List String → RunOutcome)
    (st : EngineState) (e : RawEvent) : List DispatchedAction × EngineState :=
  let sshR := st.ssh.evaluate e
  let httpR := st.http.evaluate e
  let ftpR := st.ftp.evaluate e
  let disp := dispatchCandidates st.policy runner e st.gate
    (sshR.1 ++ httpR.1 ++ ftpR.1)
  (disp.1, ⟨sshR.2, httpR.2, ftpR.2, disp.2, st.policy⟩)

/-- Emitted actions of a whole run of events through the dispatcher. -/
def engineRun (runner : List String → RunOutcome) :
    EngineState → List RawEvent → List DispatchedAction
  | _, [] => []
  | st, e :: rest =>
      let r := build_defense_actions runner st e
      r.1 ++ engineRun runner r.2 rest

/-- The sequence of (dedup key, timestamp) pairs offered to the engine
gate during a run. -/
def engineCalls (runner : List String → RunOutcome) :
    EngineState → List RawEvent → List (String × ℚ)
  | _, [] => []
  | st, e :: rest =>
      let cands := (st.ssh.evaluate e).1 ++ (st.http.evaluate e).1 ++
        (st.ftp.evaluate e).1
      cands.map (fun a => (dedupKey (normalize_action a e), e.timestamp)) ++
        engineCalls runner (build_defense_actions runner st e).2 rest

/-!  Threat scoring, from handler.py (Handler._compute_metrics,
Handler._raw_score, Handler._scoring_loop tick) and app/scoring.py
(identical caps, weights, decay and thresholds).  The reduced four-metric
variant in the top-level scoring.py shares the tick formula and the level
table. -/

/-- One scored event (the scanner.Event dataclass; meta is reduced to the
one key the metrics read, the attempted username). -/
structure SEvent where
  ts : ℚ
  src_ip : String
  port : Int
  service : String
  kind : String
  username : Option String
deriving Repr, DecidableEq

structure Metrics where
  fail_rate : Nat
  conn_rate : Nat
  unique_ips : Nat
  repeat_offenders : Nat
  ban_events : Nat
deriving Repr, DecidableEq

/-- Handler._compute_metrics: five windowed counts (the top-ip /
top-username rankings computed alongside are outside the claims). -/
def _compute_metrics (evs : List SEvent) (now : ℚ) : Metrics :=
  let w60 := now - 60
  let w10m := now - 600
  let w1h := now - 3600
  let ips1h := (evs.filter (fun e => decide (w1h ≤ e.ts))).map SEvent.src_ip
  { fail_rate :=
      (evs.filter (fun e => e.kind == "failed_auth" && decide (w60 ≤ e.ts))).length
    conn_rate :=
      (evs.filter (fun e => e.kind == "connect" && decide (w60 ≤ e.ts))).length
    unique_ips :=
      ((evs.filter (fun e => decide (w10m ≤ e.ts))).map SEvent.src_ip).dedup.length
    repeat_offenders :=
      (ips1h.dedup.filter (fun ip => decide (3 < ips1h.count ip))).length
    ban_events :=
      (evs.filter (fun e => e.kind == "ban" && decide (w10m ≤ e.ts))).length }

def CAPS : List (String × ℚ) :=
  [("fail_rate", 30), ("conn_rate", 20), ("unique_ips", 15),
   ("repeat_offenders", 10), ("ban_events", 5)]

def WEIGHTS : List (String × ℚ) :=
  [("fail_rate", 40 / 100), ("conn_rate", 25 / 100), ("unique_ips", 20 / 100),
   ("repeat_offenders", 10 / 100), ("ban_events", 5 / 100)]

def metricValue (m : Metrics) : String → ℚ
  | "fail_rate" => m.fail_rate
  | "conn_rate" => m.conn_rate
  | "unique_ips" => m.unique_ips
  | "repeat_offenders" => m.repeat_offenders
  | "ban_events" => m.ban_events
  | _ => 0

/-- Handler._raw_score: weighted capped metrics, scaled to 0-100 and
rounded to two decimals. -/
def _raw_score (m : Metrics) : ℚ :=
  round2 ((WEIGHTS.foldl
    (fun acc kv => acc + min (metricValue m kv.1 / lookupD CAPS kv.1 0) 1 * kv.2)
    0) * 100)

def HANDLER_DECAY_FACTOR : ℚ := 97 / 100
def SCORING_DECAY_FACTOR : ℚ := 95 / 100

/-- One tick of the scoring loop: score = round(min(max(raw,
prev * decay), 100.0), 2), shared by handler.py, app/scoring.py and
scoring.py (they differ only in the decay constant). -/
def score_tick (decay raw prev : ℚ) : ℚ :=
  round2 (min (max raw (prev * decay)) 100)

def LEVEL_THRESHOLDS : List (ℚ × String) :=
  [(75, "RED"), (51, "ORANGE"), (26, "YELLOW"), (0, "GREEN")]

/-- _score_to_level: first threshold (descending order) not above the
score wins; fallback GREEN. -/
def _score_to_level (score : ℚ) : String :=
  match LEVEL_THRESHOLDS.find? (fun p => decide (p.1 ≤ score)) with
  | some p => p.2
  | none => "GREEN"

/-- The level mapping as the spec words it: descending thresholds,
75 to RED, 51 to ORANGE, 26 to YELLOW, else GREEN. -/
def specScoreLevel (score : ℚ) : String :=
  if 75 ≤ score then "RED"
  else if 51 ≤ score then "ORANGE"
  else if 26 ≤ score then "YELLOW"
  else "GREEN"

/-- The raw score as the spec words it: five metrics, each divided by its
fixed cap, clamped to [0,1], combined with weights 0.40 / 0.25 / 0.20 /
0.10 / 0.05, scaled to [0,100]. -/
def specRawScore (m : Metrics) : ℚ :=
  round2 (100 * ((40 / 100) * min ((m.fail_rate : ℚ) / 30) 1
    + (25 / 100) * min ((m.conn_rate : ℚ) / 20) 1
    + (20 / 100) * min ((m.unique_ips : ℚ) / 15) 1
    + (10 / 100) * min ((m.repeat_offenders : ℚ) / 10) 1
    + (5 / 100) * min ((m.ban_events : ℚ) / 5) 1))

/-!  The connection router, from Defense_Solutions/fport/fssh.py.  The
module globals (port_map, whitelist, force_honeypot, blacklist) form the
router state; the backend dial of proxy() is an abstract boolean. -/

structure RouterState where
  port_map : Option (Int × Int)
  whitelist : List String
  force_honeypot : List String
  blacklist : List String
deriving Repr, DecidableEq

/-- get_target_port from fssh.py (port_map.get("real") /
port_map.get("honeypot"); the pair is (real, honeypot)). -/
def get_target_port (s : RouterState) (src_ip : String) : Option Int :=
  if src_ip ∈ s.force_honeypot then s.port_map.map Prod.snd
  else if src_ip ∈ s.whitelist then s.port_map.map Prod.fst
  else s.port_map.map Prod.snd

/-- add_to_blacklist from fssh.py (idempotent set insert; the file
rewrite is abstracted to the resulting set contents). -/
def add_to_blacklist (bl : List String) (src_ip : String) : List String :=
  if src_ip ∈ bl then bl else src_ip :: bl

inductive ConnOutcome where
  | dropped (why : String)
  | proxied (target_port : Int)
deriving Repr, DecidableEq

/-- The route classification recomputed inside proxy(). -/
def routeLabel (s : RouterState) (src_ip : String) : String :=
  if src_ip ∈ s.force_honeypot then "force_honeypot"
  else if src_ip ∈ s.whitelist then "whitelist"
  else "attacker"

/-- proxy from fssh.py: dial the backend (abstracted by dial_ok); on
success, blacklist attacker-routed sources and start forwarding. -/
def proxy (s : RouterState) (dial_ok : Bool) (target_port : Int)
    (src_ip : String) : ConnOutcome × RouterState :=
  if ¬dial_ok then (ConnOutcome.dropped "dial_failed", s)
  else
    let s' := if routeLabel s src_ip = "attacker" then
        { s with blacklist := add_to_blacklist s.blacklist src_ip }
      else s
    (ConnOutcome.proxied target_port, s')

/-- handle_connection from fssh.py: blacklist drop, then port-map and
target checks (Python falsiness drops port 0 too), then proxy. -/
def handle_connection (s : RouterState) (dial_ok : Bool) (src_ip : String) :
    ConnOutcome × RouterState :=
  if src_ip ∈ s.blacklist then (ConnOutcome.dropped "blacklist", s)
  else
    match s.port_map with
    | none => (ConnOutcome.dropped "missing_port_map", s)
    | some _ =>
        match get_target_port s src_ip with
        | none => (ConnOutcome.dropped "missing_target_port", s)
        | some tp =>
            if tp = 0 then (ConnOutcome.dropped "missing_target_port", s)
            else proxy s dial_ok tp src_ip

/-!  Helper lemmas. -/

theorem lookupD_setK_self {α : Type} (m : List (String × α)) (k : String) (v d : α) :
    lookupD (setK m k v) k d = v := by
  induction m with
  | nil => simp [setK, lookupD]
  | cons hd tl ih =>
      obtain ⟨k', v'⟩ := hd
      by_cases h : k' = k
      · simp [setK, lookupD, h]
      · simp [setK, lookupD, h, ih]

theorem lookupD_setK_ne {α : Type} (m : List (String × α)) (k k₂ : String) (v d : α)
    (h : k₂ ≠ k) : lookupD (setK m k v) k₂ d = lookupD m k₂ d := by
  induction m with
  | nil => simp [setK, lookupD, Ne.symm h]
  | cons hd tl ih =>
      obtain ⟨k', v'⟩ := hd
      by_cases hk : k' = k
      · subst hk
        simp [setK, lookupD, Ne.symm h]
      · simp only [setK, if_neg hk, lookupD]
        by_cases hk2 : k' = k₂
        · simp [hk2]
        · simp [hk2, ih]

theorem roundHalfEven_intCast (n : ℤ) : roundHalfEven (n : ℚ) = n := by
  simp [roundHalfEven]

theorem roundHalfEven_mono {a b : ℚ} (h : a ≤ b) : roundHalfEven a ≤ roundHalfEven b := by
  unfold roundHalfEven
  have hfl : ⌊a⌋ ≤ ⌊b⌋ := Int.floor_le_floor h
  rcases lt_or_eq_of_le hfl with hlt | heq
  · -- different floors: value for a is at most floor a + 1 which is at most floor b
    have h1 : ⌊a⌋ + 1 ≤ ⌊b⌋ := hlt
    split_ifs <;> omega
  · -- equal floors: compare fractional parts
    rw [← heq]
    have hr : a - (⌊a⌋ : ℚ) ≤ b - (⌊a⌋ : ℚ) := by linarith
    split_ifs <;> first | omega | (exfalso; linarith)

theorem round2_mono {a b : ℚ} (h : a ≤ b) : round2 a ≤ round2 b := by
  unfold round2
  have h1 : roundHalfEven (a * 100) ≤ roundHalfEven (b * 100) :=
    roundHalfEven_mono (by linarith)
  have h2 : ((roundHalfEven (a * 100) : ℚ)) ≤ ((roundHalfEven (b * 100) : ℚ)) := by
    exact_mod_cast h1
  linarith

theorem round2_zero : round2 0 = 0 := by
  simp [round2, roundHalfEven]

theorem round2_hundred : round2 100 = 100 := by
  have h : (100 : ℚ) * 100 = ((10000 : ℤ) : ℚ) := by norm_num
  rw [round2, h, roundHalfEven_intCast]
  norm_num

theorem CooldownGate.allow_cooldown (g : CooldownGate) (k : String) (t : ℚ) :
    ((g.allow k t).2).cooldown_seconds = g.cooldown_seconds := by
  unfold CooldownGate.allow
  split_ifs <;> rfl

/-- Core invariant of a replayed gate: every allowed call is at least one
cooldown later than the recorded last-seen time of its key, and any two
allowed calls on the same key are at least one cooldown apart. -/
theorem CooldownGate.runCalls_invariant (calls : List (String × ℚ)) :
    ∀ g : CooldownGate, 0 ≤ g.cooldown_seconds →
    (g.runCalls calls).1.Pairwise
      (fun a b => a.1 = b.1 → a.2 + g.cooldown_seconds ≤ b.2) ∧
    ∀ p ∈ (g.runCalls calls).1,
      lookupD g.last_seen p.1 0 + g.cooldown_seconds ≤ p.2 := by
  induction calls with
  | nil => intro g _; simp [CooldownGate.runCalls]
  | cons hd rest ih =>
      intro g hc
      obtain ⟨k, t⟩ := hd
      by_cases hallow : t - lookupD g.last_seen k 0 < g.cooldown_seconds
      · -- call refused: state unchanged
        have hstep : g.allow k t = (false, g) := by
          unfold CooldownGate.allow; rw [if_pos hallow]
        simp only [CooldownGate.runCalls, hstep]
        simpa using ih g hc
      · -- call allowed: key updated to t
        have hlast : lookupD g.last_seen k 0 + g.cooldown_seconds ≤ t := by
          push_neg at hallow; linarith
        have hstep : g.allow k t =
            (true, ⟨g.cooldown_seconds, setK g.last_seen k t⟩) := by
          unfold CooldownGate.allow; rw [if_neg hallow]
        set g' : CooldownGate := ⟨g.cooldown_seconds, setK g.last_seen k t⟩ with hg'
        have hc' : 0 ≤ g'.cooldown_seconds := hc
        obtain ⟨ihpw, ihinv⟩ := ih g' hc'
        simp only [CooldownGate.runCalls, hstep]
        constructor
        · refine List.Pairwise.cons ?_ ihpw
          intro b hb hkey
          have := ihinv b hb
          rw [← hkey] at this
          simpa [hg', lookupD_setK_self] using this
        · intro p hp
          rcases List.mem_cons.mp hp with hphead | hptail
          · subst hphead; exact hlast
          · have h2 := ihinv p hptail
            by_cases hpk : p.1 = k
            · rw [hpk] at h2 ⊢
              have h3 : lookupD g'.last_seen k 0 = t := by
                simp [hg', lookupD_setK_self]
              rw [h3] at h2
              linarith
            · have h3 : lookupD g'.last_seen p.1 0 = lookupD g.last_seen p.1 0 := by
                simp [hg', lookupD_setK_ne _ _ _ _ _ hpk]
              rw [h3] at h2
              exact h2

theorem strToLower_low : strToLower "low" = "low" := by decide

theorem strToLower_medium : strToLower "medium" = "medium" := by decide

theorem strToLower_high : strToLower "high" = "high" := by decide

theorem strToLower_critical : strToLower "critical" = "critical" := by decide

theorem CooldownGate.runCalls_append (l₁ l₂ : List (String × ℚ)) :
    ∀ g : CooldownGate,
    g.runCalls (l₁ ++ l₂) =
      ((g.runCalls l₁).1 ++ ((g.runCalls l₁).2.runCalls l₂).1,
       ((g.runCalls l₁).2.runCalls l₂).2) := by
  induction l₁ with
  | nil => intro g; simp [CooldownGate.runCalls]
  | cons hd tl ih =>
      intro g
      obtain ⟨k, t⟩ := hd
      simp only [List.cons_append, CooldownGate.runCalls, List.append_eq]
      rw [ih]
      by_cases hb : ((g.allow k t).1) <;> simp [hb]

theorem dedupKey_withEnforcement (n : DispatchedAction) (r : Option EnfResult) :
    dedupKey { n with enforcement := r } = dedupKey n := rfl

theorem createdAt_withEnforcement (n : DispatchedAction) (r : Option EnfResult) :
    ({ n with enforcement := r } : DispatchedAction).created_at = n.created_at := rfl

theorem normalize_action_created_at (a : Action) (e : RawEvent) :
    (normalize_action a e).created_at = e.timestamp := rfl

/-- The inner loop of build_defense_actions performs exactly the gate
calls of the normalized candidates, in order: the emitted actions are the
allowed calls (projected to dedup key and created_at), and the final gate
state is the replayed gate state. -/
theorem dispatchCandidates_runCalls (p : DefensePolicy)
    (runner : List String → RunOutcome) (e : RawEvent) (cs : List Action) :
    ∀ g : CooldownGate,
    (dispatchCandidates p runner e g cs).1.map
        (fun n => (dedupKey n, n.created_at)) =
      (g.runCalls (cs.map
        (fun a => (dedupKey (normalize_action a e), e.timestamp)))).1 ∧
    (dispatchCandidates p runner e g cs).2 =
      (g.runCalls (cs.map
        (fun a => (dedupKey (normalize_action a e), e.timestamp)))).2 := by
  induction cs with
  | nil => intro g; simp [dispatchCandidates, CooldownGate.runCalls]
  | cons a rest ih =>
      intro g
      obtain ⟨ih1, ih2⟩ := ih ((g.allow (dedupKey (normalize_action a e)) e.timestamp).2)
      by_cases hb : (g.allow (dedupKey (normalize_action a e)) e.timestamp).1 <;>
        simp [dispatchCandidates, CooldownGate.runCalls, hb, ih1, ih2,
          dedupKey_withEnforcement, createdAt_withEnforcement,
          normalize_action_created_at]
      all_goals rfl

/-- Across a whole run, the emitted actions projected to (dedup key,
created_at) are exactly the allowed calls of the engine gate replay. -/
theorem engineRun_runCalls (runner : List String → RunOutcome)
    (events : List RawEvent) : ∀ st : EngineState,
    (engineRun runner st events).map (fun n => (dedupKey n, n.created_at)) =
      (st.gate.runCalls (engineCalls runner st events)).1 := by
  induction events with
  | nil => intro st; simp [engineRun, engineCalls, CooldownGate.runCalls]
  | cons e rest ih =>
      intro st
      obtain ⟨hd1, hd2⟩ := dispatchCandidates_runCalls st.policy runner e
        ((st.ssh.evaluate e).1 ++ (st.http.evaluate e).1 ++ (st.ftp.evaluate e).1)
        st.gate
      have h1 : (build_defense_actions runner st e).1.map
          (fun n => (dedupKey n, n.created_at)) =
          (st.gate.runCalls
            (((st.ssh.evaluate e).1 ++ (st.http.evaluate e).1 ++
              (st.ftp.evaluate e).1).map
              (fun a => (dedupKey (normalize_action a e), e.timestamp)))).1 := by
        simpa [build_defense_actions] using hd1
      have hgate : (build_defense_actions runner st e).2.gate =
          (st.gate.runCalls
            (((st.ssh.evaluate e).1 ++ (st.http.evaluate e).1 ++
              (st.ftp.evaluate e).1).map
              (fun a => (dedupKey (normalize_action a e), e.timestamp)))).2 := by
        simpa [build_defense_actions] using hd2
      simp only [engineRun, engineCalls]
      rw [List.map_append, CooldownGate.runCalls_append]
      dsimp only
      rw [h1, ih ((build_defense_actions runner st e).2), hgate]

/-!  Claim theorems. -/

/-- C1: the NAT rule generated by DefensePolicy._ensure_ssh_redirect_infra
always uses the "dnat to host:port" verb, even for the loopback target
host 127.0.0.1 (the default Cowrie target), and never contains a
"redirect" token — contradicting the claimed loopback-redirect command
shape that the repo's own tests/test_policy.py asserts. -/
theorem C1_redirect_rule_always_dnat :
    ("dnat" ∈ ssh_redirect_rule_command "127.0.0.1" 2222 ∧
     "127.0.0.1:2222" ∈ ssh_redirect_rule_command "127.0.0.1" 2222 ∧
     "redirect" ∉ ssh_redirect_rule_command "127.0.0.1" 2222) ∧
    ("dnat" ∈ ssh_redirect_rule_command "192.0.2.10" 2222 ∧
     "192.0.2.10:2222" ∈ ssh_redirect_rule_command "192.0.2.10" 2222 ∧
     "redirect" ∉ ssh_redirect_rule_command "192.0.2.10" 2222) := by
  decide

/-- C2 counterexample: a brute.force event on port 22 through a fresh SSH
evaluator passes its cooldown gate and yields exactly one action, and
that action carries no mitigation at all — refuting the claim that every
cooldown-passing brute.force event yields an action with a block_ip
mitigation. -/
theorem C2_counterexample :
    (SSHDefense.init.evaluate
        ⟨"brute.force", "203.0.113.9", some 22, [], 0, 1000⟩).1 =
      [sshBruteforceAction "203.0.113.9"] ∧
    (sshBruteforceAction "203.0.113.9").mitigation = none := by
  constructor
  · simp [SSHDefense.evaluate, SSHDefense.init, normalize_event, CooldownGate.fresh,
      CooldownGate.allow, lookupD, setK, pruneTimes]
    norm_num
  · rfl

/-- C2 (amended): for each evaluator, a brute.force event on its port set
that passes its cooldown gate yields exactly one action of severity high
or critical with confidence at least 0.9; only the FTP evaluator attaches
a block_ip mitigation (duration 900 s) to it, while the SSH and HTTP
brute-force actions carry no mitigation. -/
theorem C2_bruteforce_actions (sS : SSHDefense) (sH : HTTPDefense)
    (sF : FTPDefense) (e : RawEvent) :
    (e.type = "brute.force" → e.port = some 22 →
      (sS.cooldown.allow ("ssh.bruteforce:" ++ e.src_ip) e.timestamp).1 = true →
      (sS.evaluate e).1 = [sshBruteforceAction e.src_ip]) ∧
    (e.type = "brute.force" → portMem e.port HTTP_WEB_PORTS = true →
      (sH.cooldown.allow ("http.bruteforce:" ++ e.src_ip) e.timestamp).1 = true →
      (sH.evaluate e).1 = [httpBruteAction e.src_ip e.port]) ∧
    (e.type = "brute.force" → portMem e.port FTP_PORTS = true →
      (sF.cooldown.allow ("ftp.bruteforce:" ++ e.src_ip) e.timestamp).1 = true →
      (sF.evaluate e).1 = [ftpBruteAction e.src_ip e.port]) ∧
    (∀ ip, (sshBruteforceAction ip).severity = "critical" ∧
      9 / 10 ≤ (sshBruteforceAction ip).confidence ∧
      (sshBruteforceAction ip).mitigation = none) ∧
    (∀ ip p, (httpBruteAction ip p).severity = "high" ∧
      9 / 10 ≤ (httpBruteAction ip p).confidence ∧
      (httpBruteAction ip p).mitigation = none) ∧
    (∀ ip p, (ftpBruteAction ip p).severity = "high" ∧
      9 / 10 ≤ (ftpBruteAction ip p).confidence ∧
      (ftpBruteAction ip p).mitigation =
        some ⟨"block_ip", "nftables", 900, "ftp_bruteforce_detected", none, none⟩) := by
  refine ⟨?_, ?_, ?_, ?_, ?_, ?_⟩
  · intro ht hp hg
    unfold SSHDefense.evaluate
    simp [normalize_event, ht, hp, hg]
  · intro ht hm hg
    unfold HTTPDefense.evaluate
    simp [normalize_event, ht, hm, hg]
  · intro ht hm hg
    unfold FTPDefense.evaluate
    simp [normalize_event, ht, hm, hg]
  · intro ip
    refine ⟨rfl, ?_, rfl⟩
    norm_num [sshBruteforceAction, make_action, round2, roundHalfEven]
  · intro ip p
    refine ⟨rfl, ?_, rfl⟩
    norm_num [httpBruteAction, make_action, round2, roundHalfEven]
  · intro ip p
    refine ⟨rfl, ?_, rfl⟩
    norm_num [ftpBruteAction, make_action, round2, roundHalfEven]

/-- Witness for C2: concrete brute.force events through fresh SSH, HTTP
and FTP evaluators, with every cooldown hypothesis discharged. -/
theorem C2_bruteforce_actions_witness :
    (SSHDefense.init.evaluate
        ⟨"brute.force", "198.51.100.7", some 22, [], 0, 1000⟩).1 =
      [sshBruteforceAction "198.51.100.7"] ∧
    (HTTPDefense.init.evaluate
        ⟨"brute.force", "198.51.100.7", some 443, [], 0, 1000⟩).1 =
      [httpBruteAction "198.51.100.7" (some 443)] ∧
    (FTPDefense.init.evaluate
        ⟨"brute.force", "198.51.100.7", some 21, [], 0, 1000⟩).1 =
      [ftpBruteAction "198.51.100.7" (some 21)] ∧
    (ftpBruteAction "198.51.100.7" (some 21)).mitigation =
      some ⟨"block_ip", "nftables", 900, "ftp_bruteforce_detected", none, none⟩ := by
  obtain ⟨h1, -, -, -, -, -⟩ := C2_bruteforce_actions SSHDefense.init HTTPDefense.init
    FTPDefense.init ⟨"brute.force", "198.51.100.7", some 22, [], 0, 1000⟩
  obtain ⟨-, h2, -, -, -, -⟩ := C2_bruteforce_actions SSHDefense.init HTTPDefense.init
    FTPDefense.init ⟨"brute.force", "198.51.100.7", some 443, [], 0, 1000⟩
  obtain ⟨-, -, h3, -, -, h6⟩ := C2_bruteforce_actions SSHDefense.init HTTPDefense.init
    FTPDefense.init ⟨"brute.force", "198.51.100.7", some 21, [], 0, 1000⟩
  refine ⟨h1 rfl rfl ?_, h2 rfl (by decide) ?_, h3 rfl (by decide) ?_,
    (h6 "198.51.100.7" (some 21)).2.2⟩
  · norm_num [SSHDefense.init, CooldownGate.fresh, CooldownGate.allow, lookupD]
  · norm_num [HTTPDefense.init, CooldownGate.fresh, CooldownGate.allow, lookupD]
  · norm_num [FTPDefense.init, CooldownGate.fresh, CooldownGate.allow, lookupD]

/-- C4 counterexample: allow does not return true on the first call for
every key and timestamp: with cooldown 15 and a first call at t0 = 5, the
unseen-key default last-allowed time 0.0 gives 5 - 0 < 15, so the very
first call is refused. -/
theorem C4_counterexample :
    ((CooldownGate.fresh 15).allow "k" 5).1 = false := by
  norm_num [CooldownGate.fresh, CooldownGate.allow, lookupD]

/-- C4 (amended): on a fresh gate the first call for a key is allowed
whenever t0 is at least cooldown_seconds (the unseen-key default
last-allowed timestamp is 0, so earlier first calls are refused); after
an allowed call at t0, every call at t0 + e with 0 ≤ e < cooldown is
refused and the call at t0 + cooldown is allowed; and over any sequence
of calls, the calls allowed for one key are at least cooldown_seconds
apart — at most one per cooldown window per key. -/
theorem C4_cooldown_gate (c t0 e : ℚ) (g : CooldownGate) (k : String)
    (hc : 0 ≤ c) (hg : g.cooldown_seconds = c) :
    (c ≤ t0 → ((CooldownGate.fresh c).allow k t0).1 = true) ∧
    ((g.allow k t0).1 = true →
      (0 ≤ e → e < c → (((g.allow k t0).2).allow k (t0 + e)).1 = false) ∧
      (((g.allow k t0).2).allow k (t0 + c)).1 = true) ∧
    ∀ calls : List (String × ℚ),
      (g.runCalls calls).1.Pairwise (fun a b => a.1 = b.1 → a.2 + c ≤ b.2) := by
  refine ⟨?_, ?_, ?_⟩
  · intro h
    have hcond : ¬(t0 - lookupD (CooldownGate.fresh c).last_seen k 0 <
        (CooldownGate.fresh c).cooldown_seconds) := by
      simp [CooldownGate.fresh, lookupD]
      linarith
    unfold CooldownGate.allow
    rw [if_neg hcond]
  · intro hallowed
    by_cases hcond : t0 - lookupD g.last_seen k 0 < g.cooldown_seconds
    · exfalso
      unfold CooldownGate.allow at hallowed
      rw [if_pos hcond] at hallowed
      exact Bool.false_ne_true hallowed
    · have hstate : (g.allow k t0).2 =
          ⟨g.cooldown_seconds, setK g.last_seen k t0⟩ := by
        unfold CooldownGate.allow
        rw [if_neg hcond]
      constructor
      · intro he0 hec
        rw [hstate]
        unfold CooldownGate.allow
        simp only [lookupD_setK_self]
        rw [if_pos (by rw [hg]; linarith : t0 + e - t0 < g.cooldown_seconds)]
      · rw [hstate]
        unfold CooldownGate.allow
        simp only [lookupD_setK_self]
        rw [if_neg (by rw [hg]; linarith : ¬(t0 + c - t0 < g.cooldown_seconds))]
  · intro calls
    have h := (CooldownGate.runCalls_invariant calls g (hg ▸ hc)).1
    rw [hg] at h
    exact h

/-- Witness for C4: cooldown 15, first call at 20 allowed, call at 20 + 3
refused, call at 20 + 15 allowed. -/
theorem C4_cooldown_gate_witness :
    ((CooldownGate.fresh 15).allow "k" 20).1 = true ∧
    ((((CooldownGate.fresh 15).allow "k" 20).2).allow "k" (20 + 3)).1 = false ∧
    ((((CooldownGate.fresh 15).allow "k" 20).2).allow "k" (20 + 15)).1 = true := by
  obtain ⟨h1, h2, -⟩ := C4_cooldown_gate 15 20 3 (CooldownGate.fresh 15) "k"
    (by norm_num) rfl
  have ha : ((CooldownGate.fresh 15).allow "k" 20).1 = true := h1 (by norm_num)
  obtain ⟨hb, hcc⟩ := h2 ha
  exact ⟨ha, hb (by norm_num) (by norm_num), hcc⟩

/-- C5 counterexample: the published score is not exactly
max(raw, prev × decay) capped at 100, because the code rounds the result
to two decimals: with raw = 0, prev = 0.30 and decay = 0.95 the claimed
value is 0.285 but the published score is 0.28 — which is also strictly
below prev × decay, refuting the no-faster-than-decay bound as stated. -/
theorem C5_counterexample :
    score_tick SCORING_DECAY_FACTOR 0 (3 / 10) ≠
      min (max 0 ((3 / 10) * SCORING_DECAY_FACTOR)) 100 ∧
    score_tick SCORING_DECAY_FACTOR 0 (3 / 10) < (3 / 10) * SCORING_DECAY_FACTOR := by
  constructor <;>
    norm_num [score_tick, SCORING_DECAY_FACTOR, round2, roundHalfEven]

/-- C5 (amended): each tick publishes round2(min(max(raw, prev × decay),
100)).  For 0 ≤ decay ≤ 1 and a previous published score in [0, 100]
(published scores are round2-fixed), a tick whose raw score does not
exceed the previous score — in particular any tick with no new events —
is non-increasing, and the published score never falls below
round2(prev × decay). -/
theorem C5_decayed_tick (decay raw prev : ℚ)
    (_hd0 : 0 ≤ decay) (hd1 : decay ≤ 1) (hprev0 : 0 ≤ prev)
    (hprev100 : prev ≤ 100) (hprevfix : round2 prev = prev)
    (hraw : raw ≤ prev) :
    score_tick decay raw prev ≤ prev ∧
    round2 (prev * decay) ≤ score_tick decay raw prev := by
  have hdecayle : prev * decay ≤ prev := by
    calc prev * decay ≤ prev * 1 := by
          exact mul_le_mul_of_nonneg_left hd1 hprev0
      _ = prev := mul_one prev
  constructor
  · have harg : min (max raw (prev * decay)) 100 ≤ prev :=
      le_trans (min_le_left _ _) (max_le hraw hdecayle)
    calc score_tick decay raw prev ≤ round2 prev := round2_mono harg
      _ = prev := hprevfix
  · have harg : prev * decay ≤ min (max raw (prev * decay)) 100 :=
      le_min (le_max_right _ _) (le_trans hdecayle hprev100)
    exact round2_mono harg

/-- Witness for C5: decay 0.95, raw 40, prev 50: the tick stays at most
50 and at least round2(47.5). -/
theorem C5_decayed_tick_witness :
    score_tick (95 / 100) 40 50 ≤ 50 ∧
    round2 (50 * (95 / 100)) ≤ score_tick (95 / 100) 40 50 := by
  have h := C5_decayed_tick (95 / 100) 40 50 (by norm_num) (by norm_num)
    (by norm_num) (by norm_num) ?_ (by norm_num)
  · exact h
  · norm_num [round2, roundHalfEven]

/-- C7: the score-to-level mapping equals the descending-threshold
mapping of the spec (≥75 RED/critical, ≥51 ORANGE/high, ≥26
YELLOW/medium, else GREEN/low); in particular 80 maps to RED, 30 to
YELLOW and 10 to GREEN. -/
theorem C7_score_to_level :
    (∀ s : ℚ, _score_to_level s = specScoreLevel s) ∧
    _score_to_level 80 = "RED" ∧ _score_to_level 30 = "YELLOW" ∧
    _score_to_level 10 = "GREEN" := by
  have hmain : ∀ s : ℚ, _score_to_level s = specScoreLevel s := by
    intro s
    unfold _score_to_level specScoreLevel LEVEL_THRESHOLDS
    by_cases h75 : (75 : ℚ) ≤ s
    · simp [List.find?, h75]
    · by_cases h51 : (51 : ℚ) ≤ s
      · simp [List.find?, h75, h51]
      · by_cases h26 : (26 : ℚ) ≤ s
        · simp [List.find?, h75, h51, h26]
        · by_cases h0 : (0 : ℚ) ≤ s
          · simp [List.find?, h75, h51, h26, h0]
          · simp [List.find?, h75, h51, h26, h0]
  refine ⟨hmain, ?_, ?_, ?_⟩ <;> rw [hmain] <;> norm_num [specScoreLevel]

/-- C9: with the process-wide mode detect (the default),
apply_mitigation hands no command at all to the external runner, and for
every action carrying a mitigation it returns applied = false with
reason detect_mode. -/
theorem C9_detect_mode (p : DefensePolicy) (runner : List String → RunOutcome)
    (a : DispatchedAction) (hmode : p.mode = "detect") :
    (apply_mitigation p runner a).2 = [] ∧
    ∀ m, a.mitigation = some m →
      (apply_mitigation p runner a).1 = ⟨false, some "detect_mode", ""⟩ := by
  have hne : p.mode ≠ "auto-block" := by rw [hmode]; decide
  unfold apply_mitigation
  cases hmit : a.mitigation with
  | none => simp
  | some m => simp [hne]

/-- Witness for C9: the default policy (mode detect) on an action whose
mitigation is a block_ip request: no command is executed and the result
is applied = false, reason detect_mode. -/
theorem C9_detect_mode_witness :
    (apply_mitigation DefensePolicy.defaults (fun _ => RunOutcome.ok 0 "")
        ⟨"ssh/cowrie", "critical", "s", "203.0.113.9", "brute.force", [], 1,
         [], some ⟨"block_ip", "nftables", 900, "r", none, none⟩, 0, none⟩).2 = [] ∧
    (apply_mitigation DefensePolicy.defaults (fun _ => RunOutcome.ok 0 "")
        ⟨"ssh/cowrie", "critical", "s", "203.0.113.9", "brute.force", [], 1,
         [], some ⟨"block_ip", "nftables", 900, "r", none, none⟩, 0, none⟩).1 =
      ⟨false, some "detect_mode", ""⟩ := by
  obtain ⟨h1, h2⟩ := C9_detect_mode DefensePolicy.defaults
    (fun _ => RunOutcome.ok 0 "")
    ⟨"ssh/cowrie", "critical", "s", "203.0.113.9", "brute.force", [], 1,
     [], some ⟨"block_ip", "nftables", 900, "r", none, none⟩, 0, none⟩ rfl
  exact ⟨h1, h2 ⟨"block_ip", "nftables", 900, "r", none, none⟩ rfl⟩

/-- C10: a source present in the loaded blacklist is dropped by
handle_connection before any routing or backend dial — the outcome and
state are independent of the backend, and the whitelist is never
consulted (the blacklist check comes first). -/
theorem C10_blacklist_drop (s : RouterState) (src_ip : String) (dial_ok : Bool)
    (h : src_ip ∈ s.blacklist) :
    handle_connection s dial_ok src_ip = (ConnOutcome.dropped "blacklist", s) := by
  unfold handle_connection
  rw [if_pos h]

/-- Witness for C10: a blacklisted source that is also whitelisted is
dropped with the state unchanged. -/
theorem C10_blacklist_drop_witness :
    handle_connection
        ⟨some (47832, 2222), ["203.0.113.5"], [], ["203.0.113.5"]⟩ true
        "203.0.113.5" =
      (ConnOutcome.dropped "blacklist",
       ⟨some (47832, 2222), ["203.0.113.5"], [], ["203.0.113.5"]⟩) :=
  C10_blacklist_drop
    ⟨some (47832, 2222), ["203.0.113.5"], [], ["203.0.113.5"]⟩
    "203.0.113.5" true (by decide)

/-- C8: force_honeypot sources are routed to the honeypot backend even
when whitelisted; otherwise whitelisted sources get the real backend;
every other source gets the honeypot backend and, once its proxied
connection is established, is present in the updated blacklist. -/
theorem C8_routing (s : RouterState) (src_ip : String) (r h : Int) :
    (src_ip ∈ s.force_honeypot →
      get_target_port s src_ip = s.port_map.map Prod.snd) ∧
    (src_ip ∉ s.force_honeypot → src_ip ∈ s.whitelist →
      get_target_port s src_ip = s.port_map.map Prod.fst) ∧
    (src_ip ∉ s.force_honeypot → src_ip ∉ s.whitelist →
      get_target_port s src_ip = s.port_map.map Prod.snd) ∧
    (s.port_map = some (r, h) → src_ip ∉ s.force_honeypot →
      src_ip ∉ s.whitelist → src_ip ∉ s.blacklist → h ≠ 0 →
      handle_connection s true src_ip =
        (ConnOutcome.proxied h,
         { s with blacklist := add_to_blacklist s.blacklist src_ip }) ∧
      src_ip ∈ (handle_connection s true src_ip).2.blacklist) := by
  refine ⟨?_, ?_, ?_, ?_⟩
  · intro hf
    unfold get_target_port
    rw [if_pos hf]
  · intro hf hw
    unfold get_target_port
    rw [if_neg hf, if_pos hw]
  · intro hf hw
    unfold get_target_port
    rw [if_neg hf, if_neg hw]
  · intro hpm hf hw hb hz
    have htarget : get_target_port s src_ip = some h := by
      unfold get_target_port
      rw [if_neg hf, if_neg hw, hpm]
      rfl
    have hroute : routeLabel s src_ip = "attacker" := by
      unfold routeLabel
      rw [if_neg hf, if_neg hw]
    have hmain : handle_connection s true src_ip =
        (ConnOutcome.proxied h,
         { s with blacklist := add_to_blacklist s.blacklist src_ip }) := by
      unfold handle_connection
      rw [if_neg hb, hpm]
      simp only [htarget]
      rw [if_neg hz]
      unfold proxy
      simp [hroute, hpm]
    refine ⟨hmain, ?_⟩
    rw [hmain]
    unfold add_to_blacklist
    by_cases hmem : src_ip ∈ s.blacklist
    · simp [hmem]
    · simp [hmem]

/-- Witness for C8: with real backend 47832 and honeypot 2222, a
force-honeypot (and whitelisted) source and an unknown source get 2222,
a whitelisted source gets 47832, and the unknown source ends up in the
blacklist after its connection is proxied. -/
theorem C8_routing_witness :
    get_target_port ⟨some (47832, 2222), ["10.0.0.8", "10.0.0.9"],
        ["10.0.0.9"], []⟩ "10.0.0.9" = some 2222 ∧
    get_target_port ⟨some (47832, 2222), ["10.0.0.8", "10.0.0.9"],
        ["10.0.0.9"], []⟩ "10.0.0.8" = some 47832 ∧
    get_target_port ⟨some (47832, 2222), ["10.0.0.8", "10.0.0.9"],
        ["10.0.0.9"], []⟩ "203.0.113.66" = some 2222 ∧
    handle_connection ⟨some (47832, 2222), ["10.0.0.8", "10.0.0.9"],
        ["10.0.0.9"], []⟩ true "203.0.113.66" =
      (ConnOutcome.proxied 2222,
       ⟨some (47832, 2222), ["10.0.0.8", "10.0.0.9"], ["10.0.0.9"],
        ["203.0.113.66"]⟩) ∧
    "203.0.113.66" ∈ (handle_connection ⟨some (47832, 2222),
        ["10.0.0.8", "10.0.0.9"], ["10.0.0.9"], []⟩ true "203.0.113.66").2.blacklist := by
  obtain ⟨hA, -, -, -⟩ := C8_routing
    ⟨some (47832, 2222), ["10.0.0.8", "10.0.0.9"], ["10.0.0.9"], []⟩
    "10.0.0.9" 47832 2222
  obtain ⟨-, hB, -, -⟩ := C8_routing
    ⟨some (47832, 2222), ["10.0.0.8", "10.0.0.9"], ["10.0.0.9"], []⟩
    "10.0.0.8" 47832 2222
  obtain ⟨-, -, hC, hD⟩ := C8_routing
    ⟨some (47832, 2222), ["10.0.0.8", "10.0.0.9"], ["10.0.0.9"], []⟩
    "203.0.113.66" 47832 2222
  obtain ⟨hD1, hD2⟩ := hD rfl (by decide) (by decide) (by decide) (by decide)
  exact ⟨hA (by decide), hB (by decide) (by decide), hC (by decide) (by decide),
    by rw [hD1]; rfl, hD2⟩

/-- C6: the aggregator raw score is computed from the five metrics —
failed-auth rate (60 s), connection rate (60 s), unique source IPs
(10 min), repeat-offender count (over 1 hour), recent ban count
(10 min) — each divided by its fixed cap, clamped to [0,1], combined with
weights 0.40 / 0.25 / 0.20 / 0.10 / 0.05 (summing to 1.0), and scaled to
[0,100]. -/
theorem C6_raw_score :
    ((WEIGHTS.map Prod.snd).sum = 1) ∧
    (∀ m : Metrics, _raw_score m = specRawScore m) ∧
    (∀ m : Metrics, 0 ≤ _raw_score m ∧ _raw_score m ≤ 100) ∧
    (∀ (evs : List SEvent) (now : ℚ),
      (_compute_metrics evs now).fail_rate =
        evs.countP (fun e => e.kind == "failed_auth" && decide (now - 60 ≤ e.ts)) ∧
      (_compute_metrics evs now).conn_rate =
        evs.countP (fun e => e.kind == "connect" && decide (now - 60 ≤ e.ts)) ∧
      (_compute_metrics evs now).unique_ips =
        ((evs.filter (fun e => decide (now - 600 ≤ e.ts))).map
          SEvent.src_ip).toFinset.card ∧
      (_compute_metrics evs now).repeat_offenders =
        (((evs.filter (fun e => decide (now - 3600 ≤ e.ts))).map
          SEvent.src_ip).toFinset.filter (fun ip =>
            3 < ((evs.filter (fun e => decide (now - 3600 ≤ e.ts))).map
              SEvent.src_ip).count ip)).card ∧
      (_compute_metrics evs now).ban_events =
        evs.countP (fun e => e.kind == "ban" && decide (now - 600 ≤ e.ts))) := by
  have heq : ∀ m : Metrics, _raw_score m = specRawScore m := by
    intro m
    unfold _raw_score specRawScore WEIGHTS CAPS
    simp only [List.foldl_cons, List.foldl_nil, lookupD, metricValue]
    simp only [String.reduceEq, if_false, if_true, reduceIte]
    congr 1
    ring
  refine ⟨by simp [WEIGHTS]; norm_num, heq, ?_, ?_⟩
  · intro m
    rw [heq m]
    unfold specRawScore
    have t1 : 0 ≤ min ((m.fail_rate : ℚ) / 30) 1 := by positivity
    have t2 : 0 ≤ min ((m.conn_rate : ℚ) / 20) 1 := by positivity
    have t3 : 0 ≤ min ((m.unique_ips : ℚ) / 15) 1 := by positivity
    have t4 : 0 ≤ min ((m.repeat_offenders : ℚ) / 10) 1 := by positivity
    have t5 : 0 ≤ min ((m.ban_events : ℚ) / 5) 1 := by positivity
    have u1 : min ((m.fail_rate : ℚ) / 30) 1 ≤ 1 := min_le_right _ _
    have u2 : min ((m.conn_rate : ℚ) / 20) 1 ≤ 1 := min_le_right _ _
    have u3 : min ((m.unique_ips : ℚ) / 15) 1 ≤ 1 := min_le_right _ _
    have u4 : min ((m.repeat_offenders : ℚ) / 10) 1 ≤ 1 := min_le_right _ _
    have u5 : min ((m.ban_events : ℚ) / 5) 1 ≤ 1 := min_le_right _ _
    constructor
    · have h0 : (0 : ℚ) ≤ 100 * ((40 / 100) * min ((m.fail_rate : ℚ) / 30) 1
          + (25 / 100) * min ((m.conn_rate : ℚ) / 20) 1
          + (20 / 100) * min ((m.unique_ips : ℚ) / 15) 1
          + (10 / 100) * min ((m.repeat_offenders : ℚ) / 10) 1
          + (5 / 100) * min ((m.ban_events : ℚ) / 5) 1) := by linarith
      calc (0 : ℚ) = round2 0 := round2_zero.symm
        _ ≤ _ := round2_mono h0
    · have h100 : 100 * ((40 / 100) * min ((m.fail_rate : ℚ) / 30) 1
          + (25 / 100) * min ((m.conn_rate : ℚ) / 20) 1
          + (20 / 100) * min ((m.unique_ips : ℚ) / 15) 1
          + (10 / 100) * min ((m.repeat_offenders : ℚ) / 10) 1
          + (5 / 100) * min ((m.ban_events : ℚ) / 5) 1) ≤ 100 := by linarith
      calc round2 _ ≤ round2 100 := round2_mono h100
        _ = 100 := round2_hundred
  · intro evs now
    refine ⟨?_, ?_, ?_, ?_, ?_⟩
    · simp [_compute_metrics, List.countP_eq_length_filter]
    · simp [_compute_metrics, List.countP_eq_length_filter]
    · simp [_compute_metrics, List.card_toFinset]
    · rw [Finset.card, Finset.filter_val, List.toFinset_val, Multiset.filter_coe,
        Multiset.coe_card]
      simp [_compute_metrics]
    · simp [_compute_metrics, List.countP_eq_length_filter]

/-- C3: dispatching the event {type connect.attempt, src_ip 10.1.1.10,
port 22, timestamp 2000.0} twice from the fresh dispatcher state returns
a non-empty action list first and the empty list second; and in general,
over any run, two emitted actions with the same dedup key
{source}|{severity}|{src_ip}|{event_type}|{summary} are at least the
15-second engine cooldown apart — colliding actions inside the window
are suppressed. -/
theorem C3_dispatch_dedup :
    (build_defense_actions (fun _ => RunOutcome.ok 1 "") EngineState.init
      ⟨"connect.attempt", "10.1.1.10", some 22, [], 0, 2000⟩).1 ≠ [] ∧
    (build_defense_actions (fun _ => RunOutcome.ok 1 "")
      (build_defense_actions (fun _ => RunOutcome.ok 1 "") EngineState.init
        ⟨"connect.attempt", "10.1.1.10", some 22, [], 0, 2000⟩).2
      ⟨"connect.attempt", "10.1.1.10", some 22, [], 0, 2000⟩).1 = [] ∧
    ∀ (runner : List String → RunOutcome) (events : List RawEvent),
      (engineRun runner EngineState.init events).Pairwise
        (fun a b => dedupKey a = dedupKey b →
          a.created_at + 15 ≤ b.created_at) := by
  refine ⟨?_, ?_, ?_⟩
  · norm_num [build_defense_actions, EngineState.init, SSHDefense.init,
      SSHDefense.evaluate, HTTPDefense.init, HTTPDefense.evaluate, FTPDefense.init,
      FTPDefense.evaluate, normalize_event, portMem, HTTP_WEB_PORTS, FTP_PORTS,
      CooldownGate.fresh, CooldownGate.allow, lookupD, setK, pruneTimes,
      SSH_WINDOW_SECONDS, SSH_BURST_THRESHOLD, SSH_CRITICAL_THRESHOLD,
      dispatchCandidates, normalize_action, strToLower_low, strToLower_high,
      _VALID_SEVERITY, dedupKey, apply_mitigation, DefensePolicy.defaults,
      sshObserveAction, make_action, round2, roundHalfEven]
  · norm_num [build_defense_actions, EngineState.init, SSHDefense.init,
      SSHDefense.evaluate, HTTPDefense.init, HTTPDefense.evaluate, FTPDefense.init,
      FTPDefense.evaluate, normalize_event, portMem, HTTP_WEB_PORTS, FTP_PORTS,
      CooldownGate.fresh, CooldownGate.allow, lookupD, setK, pruneTimes,
      SSH_WINDOW_SECONDS, SSH_BURST_THRESHOLD, SSH_CRITICAL_THRESHOLD,
      dispatchCandidates, normalize_action, strToLower_low, strToLower_high,
      _VALID_SEVERITY, dedupKey, apply_mitigation, DefensePolicy.defaults,
      sshObserveAction, make_action, round2, roundHalfEven]
  · intro runner events
    have hinv := (CooldownGate.runCalls_invariant
      (engineCalls runner EngineState.init events) EngineState.init.gate
      (by norm_num [EngineState.init, CooldownGate.fresh])).1
    have hmap := engineRun_runCalls runner events EngineState.init
    have h2 : ((engineRun runner EngineState.init events).map
        (fun n => (dedupKey n, n.created_at))).Pairwise
        (fun a b => a.1 = b.1 → a.2 + 15 ≤ b.2) := by
      rw [hmap]
      have hc : EngineState.init.gate.cooldown_seconds = 15 := rfl
      rw [hc] at hinv
      exact hinv
    have h3 := List.pairwise_map.mp h2
    simpa using h3

end GhostWall
